import Mathlib

/-!
Verification of the YouTube transcript analyzer (src/app.py) against its
natural-language specification.

The program is embedded shallowly:
* Python strings are modelled as `List Char`; Python `str.split`,
  membership (`in`) and indexing are modelled by `pySplit`, `containsSub`
  and `List.getElem?` with faithful Python semantics (splitting at every
  non-overlapping occurrence, left to right; out-of-range indexing raises
  `IndexError`, modelled as `Except.error`).
* External services (the caption-track provider, translation, the LLM) are
  an explicit environment `Env` of `Except`-valued functions.
* Streamlit message calls (`st.error`, `st.warning`) are collected in an
  output list of `Msg`.
* The retry decorator is modelled as a function of an attempt-indexed
  operation, returning the outcome together with the number of calls made
  and the list of sleep durations performed.
-/

set_option autoImplicit false
set_option maxRecDepth 10000

universe u v

/-! ### Python string primitives, on `List Char` -/

/-- Python `pat in s` membership test on character lists. -/
def containsSub (pat : List Char) : List Char → Bool
  | [] => pat.isEmpty
  | c :: rest => pat.isPrefixOf (c :: rest) || containsSub pat rest

/-- The characters strictly before the first occurrence of `pat`
(the whole list when `pat` does not occur). -/
def beforeFirst (pat : List Char) : List Char → List Char
  | [] => []
  | c :: rest => if pat.isPrefixOf (c :: rest) then [] else c :: beforeFirst pat rest

/-- The characters strictly after the first occurrence of `pat`, or `none`
when `pat` does not occur. -/
def afterFirst (pat : List Char) : List Char → Option (List Char)
  | [] => if pat.isEmpty then some [] else none
  | c :: rest =>
    if pat.isPrefixOf (c :: rest) then some ((c :: rest).drop pat.length)
    else afterFirst pat rest

/-- Fuel-indexed worker for the Python split model; the fuel only serves
structural termination and is irrelevant as long as it bounds the input
length (`pySplitF_fuel`). -/
def pySplitF (p : Char) (ps : List Char) : Nat → List Char → List (List Char)
  | 0, s => [s]
  | _ + 1, [] => [[]]
  | fuel + 1, c :: rest =>
    if (p :: ps).isPrefixOf (c :: rest) then
      [] :: pySplitF p ps fuel (rest.drop ps.length)
    else
      match pySplitF p ps fuel rest with
      | [] => [[c]]
      | h :: t => (c :: h) :: t

/-- Python `s.split(pat)` for a non-empty pattern `p :: ps`: split at every
non-overlapping occurrence, scanning left to right. -/
def pySplit (p : Char) (ps s : List Char) : List (List Char) :=
  pySplitF p ps s.length s

/-- Python `s.split(pat)` with the pattern given as a string literal.
The empty-pattern case never arises in this development (Python raises
`ValueError` there). -/
def pySplitStr (pat : String) (s : List Char) : List (List Char) :=
  match pat.toList with
  | [] => [s]
  | p :: ps => pySplit p ps s

/-- Python whitespace predicate used by str.strip (ASCII part). -/
def isPyWs (c : Char) : Bool :=
  c == ' ' || c == '\t' || c == '\n' || c == '\r' || c == '\x0b' || c == '\x0c'

/-- Python s.strip() with no arguments: remove leading and trailing
whitespace. -/
def pyStrip (s : String) : String :=
  ⟨((s.data.dropWhile isPyWs).reverse.dropWhile isPyWs).reverse⟩

/-! ### The retry decorator, src/app.py lines 58-73

`retry_on_failure(max_retries, delay)` wraps a callable: it loops
`attempt` over `range(max_retries)`, returns on success, records the
exception on failure and sleeps `delay` unless the attempt was the last,
then re-raises the last recorded exception.

The wrapped operation is modelled as `op : Nat -> Except E A`, where
`op i` is the outcome of its i-th invocation (0-based).  The model
returns the final outcome (`Except.error none` models Python re-raising
the initial `last_exception = None` when `max_retries = 0`), the number
of invocations performed, and the list of sleep durations in order. -/
def retryGo {E : Type u} {A : Type v} (op : Nat → Except E A) (delay : Nat) :
    Nat → Nat → Option E → Except (Option E) A × Nat × List Nat
  | _, 0, last => (.error last, 0, [])
  | i, r + 1, _ =>
    match op i with
    | .ok a => (.ok a, 1, [])
    | .error e =>
      let res := retryGo op delay (i + 1) r (some e)
      if r = 0 then (res.1, res.2.1 + 1, res.2.2)
      else (res.1, res.2.1 + 1, delay :: res.2.2)

/-- The decorated call: `max_retries` total attempts starting at attempt 0. -/
def retry_on_failure {E : Type u} {A : Type v} (op : Nat → Except E A)
    (max_retries delay : Nat) : Except (Option E) A × Nat × List Nat :=
  retryGo op delay 0 max_retries none

/-! ### Video id extraction, src/app.py lines 312-319

The code is
`if "youtu.be" in url: video_id = url.split("youtu.be/")[1].split("?")[0]`,
`elif "youtube.com" in url: video_id = url.split("v=")[1].split("&")[0]`,
`else: st.error(...); return None`.
`Except.error ()` models the `IndexError` raised by `[1]` when the split
produced fewer than two pieces; `Except.ok none` models the explicit
invalid-format rejection of the final `else` branch. -/

/-- The `youtu.be` branch of the URL parsing (line 314). -/
def youtuBeBranch (url : List Char) : Except Unit (Option (List Char)) :=
  match (pySplitStr "youtu.be/" url)[1]? with
  | none => .error ()
  | some s => .ok (some ((pySplitStr "?" s).headD []))

/-- The `youtube.com` branch of the URL parsing (line 316). -/
def vBranch (url : List Char) : Except Unit (Option (List Char)) :=
  match (pySplitStr "v=" url)[1]? with
  | none => .error ()
  | some s => .ok (some ((pySplitStr "&" s).headD []))

/-- Video id extraction exactly as in src/app.py lines 313-319. -/
def extract_video_id (url : List Char) : Except Unit (Option (List Char)) :=
  if containsSub "youtu.be".toList url then youtuBeBranch url
  else if containsSub "youtube.com".toList url then vBranch url
  else .ok none

/-- The id-extraction rule exactly as claim C5 words it for `youtu.be`
URLs: the substring between (the first occurrence of) the marker
`youtu.be/` and the first following question mark. -/
def claimYoutuBeId (url : List Char) : Option (List Char) :=
  (afterFirst "youtu.be/".toList url).map (fun r => beforeFirst "?".toList r)

/-- The extraction rule restated in first-occurrence terms, for the
amended claim C5: the id is the text after the first marker occurrence,
truncated before the next marker occurrence and before the first query
delimiter; a URL that contains the branch keyword but not the marker is
an index error; any other URL is the explicit invalid-format rejection. -/
def spec_video_id (url : List Char) : Except Unit (Option (List Char)) :=
  if containsSub "youtu.be".toList url then
    match afterFirst "youtu.be/".toList url with
    | none => .error ()
    | some rest =>
      .ok (some (beforeFirst "?".toList (beforeFirst "youtu.be/".toList rest)))
  else if containsSub "youtube.com".toList url then
    match afterFirst "v=".toList url with
    | none => .error ()
    | some rest =>
      .ok (some (beforeFirst "&".toList (beforeFirst "v=".toList rest)))
  else .ok none

/-! ### Data model of transcript acquisition, src/app.py lines 309-400 -/

/-- A user-facing Streamlit message (`st.error` / `st.warning`). -/
inductive Msg : Type
  | error (s : String)
  | warning (s : String)
deriving DecidableEq

/-- A caption track as exposed by the external provider.  `tid` is an
identity used to key the environment's per-track `fetch` and `translate`
behaviour. -/
structure Track : Type where
  language_code : String
  tid : Nat
deriving DecidableEq

/-- The set of caption tracks of a video, split into manually created and
auto-generated tracks, as the external transcript provider exposes it. -/
structure TranscriptList : Type where
  manual : List Track
  generated : List Track
deriving DecidableEq

/-- The transcript record returned by a successful `get_transcript` call
(src/app.py lines 388-391). -/
structure TRecord : Type where
  text : String
  original_language : String
deriving DecidableEq

/-- Observable outcome of one `get_transcript` call: the returned value,
the Streamlit messages displayed, and the translation requests issued
(track identity and requested target language). -/
structure GOut : Type where
  result : Option TRecord
  msgs : List Msg
  translateCalls : List (Nat × String)
deriving DecidableEq

/-- The external world: caption-list retrieval keyed by video id,
per-track translation and fragment fetching, and the LLM chat call.
A fragment is `Option String`: `some s` is a fragment carrying text `s`
(dict with a text key, or an object with a text attribute), `none` is a
fragment carrying no text, which the code skips. -/
structure Env : Type where
  list_transcripts : List Char → Except String TranscriptList
  translate : Track → String → Except String Track
  fetch : Track → Except String (List (Option String))
  llm : String → Except String String

/-! ### Streamlit message texts from src/app.py -/

def invalidUrlMsg : String :=
  "Invalid YouTube URL format. Please enter a valid YouTube video URL."

def listErrMsg : String :=
  "Could not retrieve a transcript for this video. This can happen if:\n1. The video has no captions\n2. The video is private\n3. The video has restricted captions\n4. YouTube's API is temporarily unavailable\nPlease try again in a few moments or try another video."

def noTranscriptMsg : String :=
  "No transcript available for this video in any supported language. Please try another video."

def emptyTranscriptMsg : String :=
  "Transcript is empty. Please try another video."

def processErrMsg : String :=
  "Transcript could not be processed. Please try again in a few moments."

def unexpectedErrMsg : String :=
  "An unexpected error occurred while fetching the transcript. Please try again in a few moments."

/-- Warning text of src/app.py line 367. -/
def translateWarnMsg (target orig : String) : String :=
  "Could not translate to " ++ target ++ ". Using original language (" ++ orig ++ ")."

/-! ### The transcript provider's track lookup

Model of the external `youtube_transcript_api` method
`TranscriptList.find_transcript(language_codes)`: it scans the requested
language codes in order and, for each, returns the manually created track
in that language if one exists, else the generated track in that
language; when no requested code matches (in particular when the
requested list is empty) it raises `NoTranscriptFound`. -/
def find_transcript (tl : TranscriptList) : List String → Except String Track
  | [] => .error "NoTranscriptFound"
  | lang :: rest =>
    match tl.manual.find? (fun t => t.language_code == lang) with
    | some t => .ok t
    | none =>
      match tl.generated.find? (fun t => t.language_code == lang) with
      | some t => .ok t
      | none => find_transcript tl rest

/-- Track selection of src/app.py lines 340-359: try the target language,
then English, then an empty language list; the chosen track is paired
with `original_lang` exactly as the code assigns it. -/
def selectTranscript (tl : TranscriptList) (target : String) :
    Option (Track × String) :=
  match find_transcript tl [target] with
  | .ok tr => some (tr, target)
  | .error _ =>
    match find_transcript tl ["en"] with
    | .ok tr => some (tr, "en")
    | .error _ =>
      match find_transcript tl [] with
      | .ok tr => some (tr, tr.language_code)
      | .error _ => none

/-- Reference selection policy for the amended claim C3, phrased over the
combined track list: a target-language track if any exists (manual tracks
take precedence through the append order), else an English track, else
nothing. -/
def specSelect (tl : TranscriptList) (target : String) :
    Option (Track × String) :=
  match (tl.manual ++ tl.generated).find? (fun t => t.language_code == target) with
  | some t => some (t, target)
  | none =>
    match (tl.manual ++ tl.generated).find? (fun t => t.language_code == "en") with
    | some t => some (t, "en")
    | none => none

/-- Text assembly of src/app.py lines 376-383: the stripped texts of the
fragments that carry text, joined with single spaces. -/
def joinedText (parts : List (Option String)) : String :=
  String.intercalate " " ((parts.filterMap id).map pyStrip)

/-- Translation step of src/app.py lines 361-367: when the target differs
from the detected original language, request a translation; keep the
original track and show a warning when it fails.  Returns the track to
fetch, the messages shown, and the translation requests issued. -/
def translateStep (env : Env) (tr0 : Track) (target orig : String) :
    Track × List Msg × List (Nat × String) :=
  if target ≠ orig then
    match env.translate tr0 target with
    | .ok tr1 => (tr1, [], [(tr0.tid, target)])
    | .error _ =>
      (tr0, [Msg.warning (translateWarnMsg target orig)], [(tr0.tid, target)])
  else (tr0, [], [])

/-- Fetch-and-assemble step of src/app.py lines 369-395: fetch the
fragments, fail on an empty fragment list, join the stripped texts, fail
when the joined text is whitespace-only, otherwise build the record. -/
def processFetch (env : Env) (tr : Track) (orig : String) :
    Option TRecord × List Msg :=
  match env.fetch tr with
  | .error _ => (none, [Msg.error processErrMsg])
  | .ok parts =>
    if parts.isEmpty then (none, [Msg.error emptyTranscriptMsg])
    else if pyStrip (joinedText parts) = "" then (none, [Msg.error emptyTranscriptMsg])
    else (some ⟨joinedText parts, orig⟩, [])

/-- Body of `get_transcript` inside its outermost `try` (src/app.py lines
311-395).  The only exception that can escape this body is the
`IndexError` of the URL split, surfaced here as `Except.error ()`; every
other failure is handled inline exactly as in the source. -/
def get_transcript_body (env : Env) (url : List Char) (target : String) :
    Except Unit GOut :=
  match extract_video_id url with
  | .error e => .error e
  | .ok none => .ok ⟨none, [Msg.error invalidUrlMsg], []⟩
  | .ok (some vid) =>
    match env.list_transcripts vid with
    | .error _ => .ok ⟨none, [Msg.error listErrMsg], []⟩
    | .ok tl =>
      match selectTranscript tl target with
      | none => .ok ⟨none, [Msg.error noTranscriptMsg], []⟩
      | some (tr0, orig) =>
        let s := translateStep env tr0 target orig
        let pf := processFetch env s.1 orig
        .ok ⟨pf.1, s.2.1 ++ pf.2, s.2.2⟩

/-- `get_transcript` (src/app.py lines 309-400): the body wrapped in the
outermost `except Exception` handler of lines 397-400, which converts any
escaping exception into an error message and a `None` result. -/
def get_transcript (env : Env) (url : List Char) (target : String) : GOut :=
  match get_transcript_body env url target with
  | .ok g => g
  | .error _ => ⟨none, [Msg.error unexpectedErrMsg], []⟩

/-! ### Response caching, src/app.py lines 76-96

Model of the `st.cache_data(ttl=...)` decorator: wall-clock time-to-live
memoization keyed on the function arguments, process-local.  A cached
entry is served while `now < storedAt + ttl`; otherwise the wrapped
function runs again.  The Boolean in the result records whether the
underlying computation ran (`true`) or the cache answered (`false`). -/

/-- One memoized entry of an `st.cache_data` cache. -/
structure CacheEntry (K : Type u) (V : Type v) : Type (max u v) where
  key : K
  value : V
  storedAt : Nat
deriving DecidableEq

/-- Look up a fresh (unexpired) entry for `k`. -/
def cacheLookup {K : Type u} {V : Type v} [DecidableEq K] (ttl now : Nat) (k : K)
    (st : List (CacheEntry K V)) : Option V :=
  (st.find? (fun e => decide (e.key = k) && decide (now < e.storedAt + ttl))).map
    (fun e => e.value)

/-- Get-or-compute for a total wrapped function. -/
def cachedCall {K : Type u} {V : Type v} [DecidableEq K] (f : K → V) (ttl now : Nat)
    (k : K) (st : List (CacheEntry K V)) : V × Bool × List (CacheEntry K V) :=
  match cacheLookup ttl now k st with
  | some v => (v, false, st)
  | none => (f k, true, ⟨k, f k, now⟩ :: st)

/-- Get-or-compute for a fallible wrapped function: a raised exception is
re-raised and nothing is cached (src/app.py lines 94-96). -/
def cachedCallE {K : Type u} {V : Type v} {E : Type} [DecidableEq K]
    (f : K → Except E V) (ttl now : Nat) (k : K) (st : List (CacheEntry K V)) :
    Except E V × Bool × List (CacheEntry K V) :=
  match cacheLookup ttl now k st with
  | some v => (.ok v, false, st)
  | none =>
    match f k with
    | .ok v => (.ok v, true, ⟨k, v, now⟩ :: st)
    | .error e => (.error e, true, st)

/-- `get_cached_transcript` (src/app.py lines 76-78): `get_transcript`
memoized on `(url, target_lang)` with a 7200-second TTL. -/
def get_cached_transcript (env : Env) (now : Nat) (url : List Char)
    (target : String) (st : List (CacheEntry (List Char × String) GOut)) :
    GOut × Bool × List (CacheEntry (List Char × String) GOut) :=
  cachedCall (fun p => get_transcript env p.1 p.2) 7200 now (url, target) st

/-- `generate_cached_summary` (src/app.py lines 81-96): the LLM summary
call memoized on the transcript text with a 3600-second TTL; an LLM
failure is logged and re-raised, hence not cached. -/
def generate_cached_summary (env : Env) (now : Nat) (text : String)
    (st : List (CacheEntry String String)) :
    Except String String × Bool × List (CacheEntry String String) :=
  cachedCallE env.llm 3600 now text st

/-! ### Concrete environments used by counterexamples and witnesses -/

/-- An environment in which every external call fails. -/
def offlineEnv : Env :=
  ⟨fun _ => .error "HTTPError", fun _ _ => .error "HTTPError",
   fun _ => .error "HTTPError", fun _ => .error "HTTPError"⟩

/-- Track list holding a single manually created French track. -/
def frOnlyTl : TranscriptList := ⟨[⟨"fr", 0⟩], []⟩

/-- Environment whose only video has a manual French caption track. -/
def frOnlyEnv : Env :=
  ⟨fun _ => .ok frOnlyTl, fun _ _ => .error "TranslationError",
   fun _ => .error "HTTPError", fun _ => .error "LLMError"⟩

/-- Environment with a manual English track, failing translation, and a
one-fragment transcript. -/
def enNoTranslateEnv : Env :=
  ⟨fun _ => .ok ⟨[⟨"en", 0⟩], []⟩, fun _ _ => .error "TranslationError",
   fun _ => .ok [some "hello world"], fun _ => .error "LLMError"⟩

/-- Environment with a manual English track and two fragments whose first
text carries a trailing blank. -/
def paddedPartsEnv : Env :=
  ⟨fun _ => .ok ⟨[⟨"en", 0⟩], []⟩, fun _ _ => .error "TranslationError",
   fun _ => .ok [some "hi ", some "there"], fun _ => .error "LLMError"⟩

/-- Fully successful environment, used by the caching witness. -/
def happyEnv : Env :=
  ⟨fun _ => .ok ⟨[⟨"en", 0⟩], []⟩, fun tr _ => .ok tr,
   fun _ => .ok [some "hello"], fun t => .ok ("S" ++ t)⟩

/-! ### Lemmas about the retry model -/

theorem retryGo_zero {E : Type u} {A : Type v} (op : Nat → Except E A)
    (delay i : Nat) (last : Option E) :
    retryGo op delay i 0 last = (.error last, 0, []) := rfl

theorem retryGo_succ {E : Type u} {A : Type v} (op : Nat → Except E A)
    (delay i r : Nat) (last : Option E) :
    retryGo op delay i (r + 1) last =
      match op i with
      | .ok a => (.ok a, 1, [])
      | .error e =>
        let res := retryGo op delay (i + 1) r (some e)
        if r = 0 then (res.1, res.2.1 + 1, res.2.2)
        else (res.1, res.2.1 + 1, delay :: res.2.2) := rfl

theorem retryGo_all_fail {E : Type u} {A : Type v} (e : Nat → E) (delay : Nat) :
    ∀ (r i : Nat) (last : Option E),
      retryGo (fun j => (Except.error (e j) : Except E A)) delay i (r + 1) last =
        (.error (some (e (i + r))), r + 1, List.replicate r delay) := by
  intro r
  induction r with
  | zero =>
    intro i last
    rw [retryGo_succ]
    simp [retryGo_zero]
  | succ r ih =>
    intro i last
    rw [retryGo_succ]
    simp only [ih (i + 1)]
    have hi : i + 1 + r = i + (r + 1) := by omega
    simp [hi, List.replicate_succ]

/-! ### Lemmas about the Python split model -/

theorem containsSub_eq_isSome (pat : List Char) :
    ∀ s : List Char, containsSub pat s = (afterFirst pat s).isSome := by
  intro s
  induction s with
  | nil =>
    by_cases h : pat.isEmpty = true <;> simp [containsSub, afterFirst, h]
  | cons c rest ih =>
    by_cases h : pat.isPrefixOf (c :: rest) = true <;>
      simp [containsSub, afterFirst, h, ih]

theorem afterFirst_eq_none_of_not_contains {pat s : List Char}
    (h : containsSub pat s = false) : afterFirst pat s = none := by
  rw [containsSub_eq_isSome] at h
  cases ha : afterFirst pat s with
  | none => rfl
  | some r => rw [ha] at h; simp at h

theorem pySplitF_fuel (p : Char) (ps : List Char) :
    ∀ (fuel fuel' : Nat) (s : List Char),
      s.length ≤ fuel → s.length ≤ fuel' →
      pySplitF p ps fuel s = pySplitF p ps fuel' s := by
  intro fuel
  induction fuel with
  | zero =>
    intro fuel' s hs _
    have hz : s = [] := List.length_eq_zero.mp (Nat.le_zero.mp hs)
    subst hz
    cases fuel' <;> rfl
  | succ fuel ih =>
    intro fuel' s hs hs'
    cases s with
    | nil => cases fuel' <;> rfl
    | cons c rest =>
      cases fuel' with
      | zero => exact absurd hs' (Nat.not_succ_le_zero _)
      | succ f =>
        simp only [pySplitF]
        by_cases h : (p :: ps).isPrefixOf (c :: rest) = true
        · rw [if_pos h, if_pos h]
          have hb : (rest.drop ps.length).length ≤ fuel := by
            simp only [List.length_drop]
            simp only [List.length_cons] at hs
            omega
          have hb' : (rest.drop ps.length).length ≤ f := by
            simp only [List.length_drop]
            simp only [List.length_cons] at hs'
            omega
          rw [ih f (rest.drop ps.length) hb hb']
        · rw [if_neg h, if_neg h]
          rw [ih f rest (by simp only [List.length_cons] at hs; omega)
            (by simp only [List.length_cons] at hs'; omega)]

theorem pySplit_eq (p : Char) (ps : List Char) :
    ∀ s : List Char,
      pySplit p ps s =
        beforeFirst (p :: ps) s ::
          (match afterFirst (p :: ps) s with
           | none => ([] : List (List Char))
           | some r => pySplit p ps r) := by
  intro s
  induction s with
  | nil => simp [pySplit, pySplitF, beforeFirst, afterFirst]
  | cons c rest ih =>
    by_cases h : (p :: ps).isPrefixOf (c :: rest) = true
    · show pySplitF p ps (rest.length + 1) (c :: rest) = _
      simp only [pySplitF, h, if_pos, if_true]
      rw [pySplitF_fuel p ps rest.length (rest.drop ps.length).length
        (rest.drop ps.length) (by simp only [List.length_drop]; omega)
        (Nat.le_refl _)]
      simp only [beforeFirst, afterFirst, h, if_pos, if_true]
      simp [List.drop_succ_cons, pySplit]
    · show pySplitF p ps (rest.length + 1) (c :: rest) = _
      simp only [pySplitF, h, if_neg, if_false]
      rw [show pySplitF p ps rest.length rest = pySplit p ps rest from rfl]
      rw [ih]
      simp [beforeFirst, afterFirst, h]

theorem pySplit_headD (p : Char) (ps s : List Char) :
    (pySplit p ps s).headD [] = beforeFirst (p :: ps) s := by
  rw [pySplit_eq]
  rfl

theorem pySplit_getElem1 (p : Char) (ps s : List Char) :
    (pySplit p ps s)[1]? =
      (afterFirst (p :: ps) s).map (fun r => beforeFirst (p :: ps) r) := by
  rw [pySplit_eq]
  cases h : afterFirst (p :: ps) s with
  | none => simp
  | some r =>
    simp only [Option.map_some, List.getElem?_cons_succ]
    rw [pySplit_eq]
    simp

theorem pySplitStr_getElem1 (pat : String) (s : List Char)
    (h : pat.toList ≠ []) :
    (pySplitStr pat s)[1]? =
      (afterFirst pat.toList s).map (fun r => beforeFirst pat.toList r) := by
  cases hp : pat.toList with
  | nil => exact absurd hp h
  | cons p ps =>
    unfold pySplitStr
    rw [hp]
    exact pySplit_getElem1 p ps s

theorem pySplitStr_headD (pat : String) (s : List Char)
    (h : pat.toList ≠ []) :
    (pySplitStr pat s).headD [] = beforeFirst pat.toList s := by
  cases hp : pat.toList with
  | nil => exact absurd hp h
  | cons p ps =>
    unfold pySplitStr
    rw [hp]
    exact pySplit_headD p ps s


/-- Claim C5 (amended): video id extraction, described by first
occurrences: for a URL containing the text youtu.be, the id is the part
after the first youtu.be/ marker, cut before the next marker occurrence
and before the first question mark, and an index error (handled as a
failure) when the marker with slash does not occur; for a URL containing
youtube.com, the same with the v= marker and the ampersand; any other URL
is rejected as an invalid-format failure. -/
theorem c5_extract_video_id_spec (url : List Char) :
    extract_video_id url = spec_video_id url := by
  unfold extract_video_id spec_video_id
  by_cases h1 : containsSub "youtu.be".toList url = true
  · rw [if_pos h1, if_pos h1]
    unfold youtuBeBranch
    rw [pySplitStr_getElem1 "youtu.be/" url (by decide)]
    cases ha : afterFirst "youtu.be/".toList url with
    | none => rfl
    | some rest =>
      rw [show Option.map (fun r => beforeFirst "youtu.be/".toList r) (some rest)
            = some (beforeFirst "youtu.be/".toList rest) from rfl]
      show Except.ok (some ((pySplitStr "?" (beforeFirst "youtu.be/".toList rest)).headD []))
            = _
      rw [pySplitStr_headD "?" (beforeFirst "youtu.be/".toList rest) (by decide)]
  · rw [if_neg h1, if_neg h1]
    by_cases h2 : containsSub "youtube.com".toList url = true
    · rw [if_pos h2, if_pos h2]
      unfold vBranch
      rw [pySplitStr_getElem1 "v=" url (by decide)]
      cases ha : afterFirst "v=".toList url with
      | none => rfl
      | some rest =>
        rw [show Option.map (fun r => beforeFirst "v=".toList r) (some rest)
              = some (beforeFirst "v=".toList rest) from rfl]
        show Except.ok (some ((pySplitStr "&" (beforeFirst "v=".toList rest)).headD []))
              = _
        rw [pySplitStr_headD "&" (beforeFirst "v=".toList rest) (by decide)]
    · rw [if_neg h2, if_neg h2]

/-- Counterexample to claim C5 as stated: on a URL where the marker
youtu.be/ occurs twice before the question mark, the code takes only the
piece between the first and the second marker occurrence, not the whole
substring between the marker and the first following question mark. -/
theorem c5_counterexample :
    extract_video_id "https://youtu.be/abc/youtu.be/def?x".toList
        = .ok (some "abc/".toList) ∧
    claimYoutuBeId "https://youtu.be/abc/youtu.be/def?x".toList
        = some "abc/youtu.be/def".toList ∧
    "abc/".toList ≠ "abc/youtu.be/def".toList :=
  ⟨rfl, rfl, by decide⟩

/-- Claim C10: a URL containing the text youtu.be is always handled by
the youtu.be branch, never by the v= rule, even when it also contains
youtube.com; and when the URL lacks the youtu.be/ marker, that branch
raises an index error, so get_transcript shows the unexpected-error
message and returns None. -/
theorem c10_branch_precedence (url : List Char) (env : Env) (target : String)
    (h : containsSub "youtu.be".toList url = true) :
    extract_video_id url = youtuBeBranch url ∧
    (containsSub "youtu.be/".toList url = false →
      extract_video_id url = .error () ∧
      get_transcript env url target = ⟨none, [Msg.error unexpectedErrMsg], []⟩) := by
  have hx : extract_video_id url = youtuBeBranch url := by
    unfold extract_video_id
    rw [if_pos h]
  refine ⟨hx, fun h2 => ?_⟩
  have hybr : youtuBeBranch url = .error () := by
    unfold youtuBeBranch
    rw [pySplitStr_getElem1 "youtu.be/" url (by decide)]
    rw [afterFirst_eq_none_of_not_contains h2]
    rfl
  refine ⟨hx.trans hybr, ?_⟩
  unfold get_transcript get_transcript_body
  rw [hx, hybr]

/-- Witness for C10 at a watch URL carrying a feature=youtu.be suffix:
it contains both youtu.be and youtube.com, lacks the youtu.be/ marker,
and is rejected through the youtu.be branch even though the v= rule
would have found an id. -/
theorem c10_witness :
    containsSub "youtu.be".toList
        "https://www.youtube.com/watch?v=abc&feature=youtu.be".toList = true ∧
    vBranch "https://www.youtube.com/watch?v=abc&feature=youtu.be".toList
        = .ok (some "abc".toList) ∧
    (extract_video_id
        "https://www.youtube.com/watch?v=abc&feature=youtu.be".toList
          = youtuBeBranch
              "https://www.youtube.com/watch?v=abc&feature=youtu.be".toList ∧
      (containsSub "youtu.be/".toList
          "https://www.youtube.com/watch?v=abc&feature=youtu.be".toList = false →
        extract_video_id
            "https://www.youtube.com/watch?v=abc&feature=youtu.be".toList
          = .error () ∧
        get_transcript offlineEnv
            "https://www.youtube.com/watch?v=abc&feature=youtu.be".toList "en"
          = ⟨none, [Msg.error unexpectedErrMsg], []⟩)) :=
  ⟨by decide, rfl,
    c10_branch_precedence
      "https://www.youtube.com/watch?v=abc&feature=youtu.be".toList
      offlineEnv "en" (by decide)⟩

/-! ### Retry wrapper claims -/

/-- Claim C1: for an operation that raises on every call and any maximum
attempt count N of at least 1, the wrapper invokes the operation exactly
N times, sleeps the fixed delay after each attempt but the last, and
re-raises the failure of the final attempt unchanged. -/
theorem c1_retry_all_fail {E : Type u} {A : Type v} (e : Nat → E)
    (d N : Nat) (h : 1 ≤ N) :
    retry_on_failure (fun i => (Except.error (e i) : Except E A)) N d =
      (.error (some (e (N - 1))), N, List.replicate (N - 1) d) := by
  obtain ⟨r, rfl⟩ : ∃ r, N = r + 1 := ⟨N - 1, by omega⟩
  unfold retry_on_failure
  rw [retryGo_all_fail]
  simp

/-- Witness for C1: three attempts with delay 2 against an operation that
always fails; the wrapper performs 3 calls, 2 sleeps, and re-raises the
third failure. -/
theorem c1_retry_all_fail_witness :
    1 ≤ 3 ∧
    retry_on_failure (fun i => (Except.error (i + 10) : Except Nat Unit)) 3 2 =
      (.error (some 12), 3, List.replicate 2 2) := by
  refine ⟨by decide, ?_⟩
  have h := c1_retry_all_fail (A := Unit) (fun i => i + 10) 2 3 (by decide)
  simpa using h

/-- Claim C2: for an operation failing on its first two calls and
succeeding on the third, the wrapper with 3 attempts returns the third
call's success value after exactly 3 calls and 2 sleeps of the fixed
delay (none after the success). -/
theorem c2_retry_two_failures {E : Type u} {A : Type v}
    (op : Nat → Except E A) (e0 e1 : E) (a : A) (d : Nat)
    (h0 : op 0 = .error e0) (h1 : op 1 = .error e1) (h2 : op 2 = .ok a) :
    retry_on_failure op 3 d = (.ok a, 3, [d, d]) := by
  have s1 : retryGo op d 2 1 (some e1) = (.ok a, 1, []) := by
    show retryGo op d 2 (0 + 1) (some e1) = _
    rw [retryGo_succ, h2]
  have s2 : retryGo op d 1 2 (some e0) = (.ok a, 2, [d]) := by
    show retryGo op d 1 (1 + 1) (some e0) = _
    rw [retryGo_succ, h1]
    simp [s1]
  show retryGo op d 0 (2 + 1) none = _
  rw [retryGo_succ, h0]
  simp [s2]

/-- Witness for C2: a concrete operation failing twice then succeeding,
run with 3 attempts and delay 5. -/
theorem c2_retry_two_failures_witness :
    (fun i => if i < 2 then (Except.error i : Except Nat String)
        else .ok "done") 0 = .error 0 ∧
    (fun i => if i < 2 then (Except.error i : Except Nat String)
        else .ok "done") 1 = .error 1 ∧
    (fun i => if i < 2 then (Except.error i : Except Nat String)
        else .ok "done") 2 = .ok "done" ∧
    retry_on_failure
        (fun i => if i < 2 then (Except.error i : Except Nat String)
          else .ok "done") 3 5 =
      (.ok "done", 3, [5, 5]) :=
  ⟨rfl, rfl, rfl,
    c2_retry_two_failures _ 0 1 "done" 5 rfl rfl rfl⟩

theorem processFetch_shape (env : Env) (tr : Track) (orig : String) :
    (∃ r, (processFetch env tr orig).1 = some r ∧
      (processFetch env tr orig).2 = []) ∨
    ((processFetch env tr orig).1 = none ∧
      ∃ m, (processFetch env tr orig).2 = [Msg.error m]) := by
  unfold processFetch
  split
  · right; exact ⟨rfl, processErrMsg, rfl⟩
  · split
    · right; exact ⟨rfl, emptyTranscriptMsg, rfl⟩
    · split
      · right; exact ⟨rfl, emptyTranscriptMsg, rfl⟩
      · left; exact ⟨_, rfl, rfl⟩

theorem processFetch_some (env : Env) (tr : Track) (orig : String)
    (r : TRecord) (h : (processFetch env tr orig).1 = some r) :
    ∃ parts, env.fetch tr = .ok parts ∧ parts ≠ [] ∧
      r.text = joinedText parts ∧ pyStrip r.text ≠ "" ∧
      r.original_language = orig := by
  unfold processFetch at h
  split at h
  · simp at h
  · rename_i parts heq
    split at h
    · simp at h
    · rename_i hne
      split at h
      · simp at h
      · rename_i htr
        simp only [Option.some.injEq] at h
        refine ⟨parts, heq, ?_, ?_, ?_, ?_⟩
        · intro hz
          subst hz
          simp at hne
        · rw [← h]
        · rw [← h]
          exact htr
        · rw [← h]

theorem get_transcript_result_some (env : Env) (url : List Char)
    (target : String) (r : TRecord)
    (h : (get_transcript env url target).result = some r) :
    ∃ tr orig, (processFetch env tr orig).1 = some r := by
  unfold get_transcript at h
  split at h
  · rename_i g hb
    unfold get_transcript_body at hb
    split at hb
    · exact absurd hb (by simp)
    · simp only [Except.ok.injEq] at hb
      rw [← hb] at h
      simp at h
    · split at hb
      · simp only [Except.ok.injEq] at hb
        rw [← hb] at h
        simp at h
      · split at hb
        · simp only [Except.ok.injEq] at hb
          rw [← hb] at h
          simp at h
        · rename_i tr0 orig hs
          simp only [Except.ok.injEq] at hb
          rw [← hb] at h
          exact ⟨(translateStep env tr0 target orig).1, orig, h⟩
  · simp at h

/-- Claim C9: get_transcript always returns normally, either a record or
None after displaying an error message, and never propagates an
exception; consequently the retry decorator wrapped around it observes a
success on its very first call, performing exactly one call and no
sleep. -/
theorem c9_get_transcript_never_raises (env : Env) (url : List Char)
    (target : String) :
    ((∃ r, (get_transcript env url target).result = some r) ∨
      ((get_transcript env url target).result = none ∧
        ∃ m, Msg.error m ∈ (get_transcript env url target).msgs)) ∧
    retry_on_failure
        (fun _ => (Except.ok (get_transcript env url target) : Except Unit GOut))
        3 2 =
      (.ok (get_transcript env url target), 1, []) := by
  constructor
  · unfold get_transcript
    split
    · rename_i g hb
      unfold get_transcript_body at hb
      split at hb
      · exact absurd hb (by simp)
      · simp only [Except.ok.injEq] at hb
        rw [← hb]
        right
        exact ⟨rfl, invalidUrlMsg, by simp⟩
      · split at hb
        · simp only [Except.ok.injEq] at hb
          rw [← hb]
          right
          exact ⟨rfl, listErrMsg, by simp⟩
        · split at hb
          · simp only [Except.ok.injEq] at hb
            rw [← hb]
            right
            exact ⟨rfl, noTranscriptMsg, by simp⟩
          · rename_i tr0 orig hs
            simp only [Except.ok.injEq] at hb
            rw [← hb]
            rcases processFetch_shape env (translateStep env tr0 target orig).1
                orig with ⟨r, hr, _⟩ | ⟨hn, m, hm⟩
            · left
              exact ⟨r, hr⟩
            · right
              refine ⟨hn, m, ?_⟩
              have hmem : Msg.error m ∈
                  (translateStep env tr0 target orig).2.1 ++
                    (processFetch env (translateStep env tr0 target orig).1
                      orig).2 := by
                rw [hm]
                exact List.mem_append_right _ (by simp)
              exact hmem
    · right
      exact ⟨rfl, unexpectedErrMsg, by simp⟩
  · rfl

/-- Claim C4: when the target language differs from the selected track's
detected language, get_transcript requests a translation; if translation
fails, it shows a warning and processes the original-language track, so
the outcome equals processing the untranslated track: translation failure
alone never turns a retrievable transcript into an empty or failed
result. -/
theorem c4_translation_fallback (env : Env) (url : List Char)
    (target : String) (vid : List Char) (tl : TranscriptList)
    (tr : Track) (orig er : String)
    (hx : extract_video_id url = .ok (some vid))
    (hl : env.list_transcripts vid = .ok tl)
    (hs : selectTranscript tl target = some (tr, orig))
    (hne : target ≠ orig)
    (ht : env.translate tr target = .error er) :
    get_transcript env url target =
      ⟨(processFetch env tr orig).1,
        Msg.warning (translateWarnMsg target orig) ::
          (processFetch env tr orig).2,
        [(tr.tid, target)]⟩ := by
  have hstep : translateStep env tr target orig =
      (tr, [Msg.warning (translateWarnMsg target orig)], [(tr.tid, target)]) := by
    unfold translateStep
    rw [if_pos hne, ht]
  unfold get_transcript
  split
  · rename_i g hb
    unfold get_transcript_body at hb
    split at hb
    · rename_i e heq
      rw [hx] at heq
      exact absurd heq (by simp)
    · rename_i heq
      rw [hx] at heq
      exact absurd heq (by simp)
    · rename_i vid2 heq
      rw [hx] at heq
      simp only [Except.ok.injEq, Option.some.injEq] at heq
      subst heq
      split at hb
      · rename_i e heq2
        rw [hl] at heq2
        exact absurd heq2 (by simp)
      · rename_i tl2 heq2
        rw [hl] at heq2
        simp only [Except.ok.injEq] at heq2
        subst heq2
        split at hb
        · rename_i heq3
          rw [hs] at heq3
          exact absurd heq3 (by simp)
        · rename_i tr0 orig2 heq3
          rw [hs] at heq3
          simp only [Option.some.injEq, Prod.mk.injEq] at heq3
          obtain ⟨h5, h6⟩ := heq3
          subst h5
          subst h6
          simp only [Except.ok.injEq] at hb
          rw [← hb, hstep]
          simp
  · rename_i hb
    unfold get_transcript_body at hb
    split at hb
    · rename_i e heq
      rw [hx] at heq
      exact absurd heq (by simp)
    · exact absurd hb (by simp)
    · split at hb
      · exact absurd hb (by simp)
      · split at hb
        · exact absurd hb (by simp)
        · exact absurd hb (by simp)

/-- Witness for C4: a video with only a manual English track, target
language hi, failing translation; get_transcript warns and returns the
English text. -/
theorem c4_translation_fallback_witness :
    extract_video_id "https://youtu.be/abc".toList = .ok (some "abc".toList) ∧
    enNoTranslateEnv.list_transcripts "abc".toList = .ok ⟨[⟨"en", 0⟩], []⟩ ∧
    selectTranscript ⟨[⟨"en", 0⟩], []⟩ "hi" = some (⟨"en", 0⟩, "en") ∧
    ("hi" : String) ≠ "en" ∧
    enNoTranslateEnv.translate ⟨"en", 0⟩ "hi" = .error "TranslationError" ∧
    get_transcript enNoTranslateEnv "https://youtu.be/abc".toList "hi" =
      ⟨(processFetch enNoTranslateEnv ⟨"en", 0⟩ "en").1,
        Msg.warning (translateWarnMsg "hi" "en") ::
          (processFetch enNoTranslateEnv ⟨"en", 0⟩ "en").2,
        [(0, "hi")]⟩ ∧
    (get_transcript enNoTranslateEnv "https://youtu.be/abc".toList "hi").result
        = some ⟨"hello world", "en"⟩ :=
  ⟨rfl, rfl, rfl, by decide, rfl,
    c4_translation_fallback enNoTranslateEnv "https://youtu.be/abc".toList "hi"
      "abc".toList ⟨[⟨"en", 0⟩], []⟩ ⟨"en", 0⟩ "en" "TranslationError"
      rfl rfl rfl (by decide) rfl,
    rfl⟩

/-- Counterexample to claim C3 as stated: a video offering a manually
created French track, requested with target language en; a track is
available, yet get_transcript fails with the no-transcript error, because
its final fallback requests an empty language list, which matches
nothing. -/
theorem c3_counterexample :
    frOnlyTl.manual ≠ [] ∧
    selectTranscript frOnlyTl "en" = none ∧
    get_transcript frOnlyEnv "https://youtu.be/abc".toList "en"
      = ⟨none, [Msg.error noTranscriptMsg], []⟩ :=
  ⟨by decide, rfl, rfl⟩

theorem find_first_append {α : Type u} (l₁ l₂ : List α) (p : α → Bool) :
    (l₁ ++ l₂).find? p = (l₁.find? p).orElse (fun _ => l₂.find? p) := by
  induction l₁ with
  | nil => simp [Option.orElse]
  | cons a l ih =>
    by_cases h : p a = true <;> simp [List.find?, h, ih, Option.orElse]

theorem find_transcript_single (tl : TranscriptList) (lang : String) :
    find_transcript tl [lang] =
      match (tl.manual.find? (fun t => t.language_code == lang)).orElse
          (fun _ => tl.generated.find? (fun t => t.language_code == lang)) with
      | some t => Except.ok t
      | none => Except.error "NoTranscriptFound" := by
  unfold find_transcript
  cases hm : tl.manual.find? (fun t => t.language_code == lang) with
  | some t => simp [Option.orElse]
  | none =>
    cases hg : tl.generated.find? (fun t => t.language_code == lang) with
    | some t => simp [Option.orElse]
    | none => simp [Option.orElse, find_transcript]

/-- Claim C3 (amended): track selection picks a target-language track if
one exists (a manually created one in preference to a generated one),
else an English track (same preference), and otherwise fails even when
tracks in other languages are available, because the final any-track
fallback requests an empty language list, which never matches. -/
theorem c3_selection_policy (tl : TranscriptList) (target : String) :
    selectTranscript tl target = specSelect tl target := by
  unfold selectTranscript specSelect
  rw [find_transcript_single tl target, find_transcript_single tl "en",
    find_first_append, find_first_append]
  cases h1 : (tl.manual.find? (fun t => t.language_code == target)).orElse
      (fun _ => tl.generated.find? (fun t => t.language_code == target)) with
  | some t => rfl
  | none =>
    cases h2 : (tl.manual.find? (fun t => t.language_code == "en")).orElse
        (fun _ => tl.generated.find? (fun t => t.language_code == "en")) with
    | some t => rfl
    | none => rfl

/-- Counterexample to claim C6 as stated: fragments are stripped before
joining, so for fragment texts carrying surrounding whitespace the
returned text differs from the plain single-space concatenation of the
fragment texts. -/
theorem c6_counterexample :
    paddedPartsEnv.fetch ⟨"en", 0⟩ = .ok [some "hi ", some "there"] ∧
    (get_transcript paddedPartsEnv "https://youtu.be/abc".toList "en").result
        = some ⟨"hi there", "en"⟩ ∧
    String.intercalate " " ["hi ", "there"] ≠ "hi there" :=
  ⟨rfl, rfl, by decide⟩

/-- Claim C6 (amended): a successful get_transcript returns a record
whose text is the whitespace-stripped texts of the text-bearing fetched
fragments joined with single spaces, produced from a non-empty fragment
list; a returned text always contains a non-whitespace character, hence
is non-empty (empty fragment lists and whitespace-only joins are turned
into failures). -/
theorem c6_joined_text (env : Env) (url : List Char) (target : String)
    (r : TRecord) (h : (get_transcript env url target).result = some r) :
    pyStrip r.text ≠ "" ∧ r.text ≠ "" ∧
    ∃ tr parts, env.fetch tr = .ok parts ∧ parts ≠ [] ∧
      r.text = joinedText parts := by
  obtain ⟨tr, orig, hpf⟩ := get_transcript_result_some env url target r h
  obtain ⟨parts, hf, hne, htext, htrim, -⟩ := processFetch_some env tr orig r hpf
  refine ⟨htrim, ?_, tr, parts, hf, hne, htext⟩
  intro hz
  rw [hz] at htrim
  exact htrim rfl

/-- Witness for C6 at the padded-fragments environment. -/
theorem c6_joined_text_witness :
    (get_transcript paddedPartsEnv "https://youtu.be/abc".toList "en").result
        = some ⟨"hi there", "en"⟩ ∧
    (pyStrip ("hi there" : String) ≠ "" ∧ ("hi there" : String) ≠ "" ∧
      ∃ tr parts, paddedPartsEnv.fetch tr = .ok parts ∧ parts ≠ [] ∧
        ("hi there" : String) = joinedText parts) :=
  ⟨rfl, c6_joined_text paddedPartsEnv "https://youtu.be/abc".toList "en"
    ⟨"hi there", "en"⟩ rfl⟩

/-- Claim C7 (code bug evidence): with a caption-list retrieval that
fails on every call, the decorated get_transcript handles the failure
internally and returns None with the error message on its first attempt,
so the retry wrapper observes a success after exactly one call and
performs no sleep: the advertised retry of caption-list retrieval never
happens. -/
theorem c7_no_retry_on_list_failure :
    get_transcript offlineEnv "https://youtu.be/abc".toList "en"
        = ⟨none, [Msg.error listErrMsg], []⟩ ∧
    retry_on_failure
        (fun _ => (Except.ok (get_transcript offlineEnv
          "https://youtu.be/abc".toList "en") : Except Unit GOut)) 3 2 =
      (.ok ⟨none, [Msg.error listErrMsg], []⟩, 1, []) :=
  ⟨rfl, rfl⟩

/-- Claim C8: the transcript cache memoizes per (url, language) for 7200
seconds and the summary cache per transcript text for 3600 seconds: a
second call with identical input inside the TTL window returns the
cached value without running the underlying computation, and a call at
or after expiry runs it again. -/
theorem c8_cache_ttl (env : Env) (url : List Char) (target : String)
    (t0 t1 t2 u0 u1 u2 : Nat) (text s : String)
    (h1 : t0 ≤ t1) (h2 : t1 < t0 + 7200) (h3 : t0 + 7200 ≤ t2)
    (h4 : u0 ≤ u1) (h5 : u1 < u0 + 3600) (h6 : u0 + 3600 ≤ u2)
    (hllm : env.llm text = .ok s) :
    get_cached_transcript env t0 url target [] =
      (get_transcript env url target, true,
        [⟨(url, target), get_transcript env url target, t0⟩]) ∧
    get_cached_transcript env t1 url target
        [⟨(url, target), get_transcript env url target, t0⟩] =
      (get_transcript env url target, false,
        [⟨(url, target), get_transcript env url target, t0⟩]) ∧
    (get_cached_transcript env t2 url target
        [⟨(url, target), get_transcript env url target, t0⟩]).2.1 = true ∧
    generate_cached_summary env u0 text [] =
      (.ok s, true, [⟨text, s, u0⟩]) ∧
    generate_cached_summary env u1 text [⟨text, s, u0⟩] =
      (.ok s, false, [⟨text, s, u0⟩]) ∧
    (generate_cached_summary env u2 text [⟨text, s, u0⟩]).2.1 = true := by
  have hn2 : ¬ (t2 < t0 + 7200) := by omega
  have hn6 : ¬ (u2 < u0 + 3600) := by omega
  refine ⟨rfl, ?_, ?_, ?_, ?_, ?_⟩
  · unfold get_cached_transcript cachedCall cacheLookup
    simp [List.find?, h2]
  · unfold get_cached_transcript cachedCall cacheLookup
    simp [List.find?, hn2]
  · unfold generate_cached_summary cachedCallE cacheLookup
    simp [List.find?, hllm]
  · unfold generate_cached_summary cachedCallE cacheLookup
    simp [List.find?, h5]
  · unfold generate_cached_summary cachedCallE cacheLookup
    simp [List.find?, hn6, hllm]

/-- Witness for C8: transcript cache hit at second 7199 and recompute at
second 7200; summary cache hit at second 3599 and recompute at second
3600, on a fully successful environment. -/
theorem c8_cache_ttl_witness :
    (0 : Nat) ≤ 7199 ∧ 7199 < 0 + 7200 ∧ 0 + 7200 ≤ 7200 ∧
    (0 : Nat) ≤ 3599 ∧ 3599 < 0 + 3600 ∧ 0 + 3600 ≤ 3600 ∧
    happyEnv.llm "doc" = .ok "Sdoc" ∧
    (get_cached_transcript happyEnv 0 "https://youtu.be/abc".toList "en" [] =
      (get_transcript happyEnv "https://youtu.be/abc".toList "en", true,
        [⟨("https://youtu.be/abc".toList, "en"),
          get_transcript happyEnv "https://youtu.be/abc".toList "en", 0⟩]) ∧
    get_cached_transcript happyEnv 7199 "https://youtu.be/abc".toList "en"
        [⟨("https://youtu.be/abc".toList, "en"),
          get_transcript happyEnv "https://youtu.be/abc".toList "en", 0⟩] =
      (get_transcript happyEnv "https://youtu.be/abc".toList "en", false,
        [⟨("https://youtu.be/abc".toList, "en"),
          get_transcript happyEnv "https://youtu.be/abc".toList "en", 0⟩]) ∧
    (get_cached_transcript happyEnv 7200 "https://youtu.be/abc".toList "en"
        [⟨("https://youtu.be/abc".toList, "en"),
          get_transcript happyEnv "https://youtu.be/abc".toList "en", 0⟩]).2.1
      = true ∧
    generate_cached_summary happyEnv 0 "doc" [] =
      (.ok "Sdoc", true, [⟨"doc", "Sdoc", 0⟩]) ∧
    generate_cached_summary happyEnv 3599 "doc" [⟨"doc", "Sdoc", 0⟩] =
      (.ok "Sdoc", false, [⟨"doc", "Sdoc", 0⟩]) ∧
    (generate_cached_summary happyEnv 3600 "doc" [⟨"doc", "Sdoc", 0⟩]).2.1
      = true) :=
  ⟨by decide, by decide, by decide, by decide, by decide, by decide, rfl,
    c8_cache_ttl happyEnv "https://youtu.be/abc".toList "en"
      0 7199 7200 0 3599 3600 "doc" "Sdoc"
      (by decide) (by decide) (by decide) (by decide) (by decide) (by decide)
      rfl⟩
